import Mathlib

/-
Verification of the DeckMind session/process lifecycle subsystem
(frontend layer) against its design specification.

Shallow embedding of:
  src/utils/buildClaudeCommand.ts  — the Command Composer
  src/stores/appStore.ts           — the per-session UI state store
  src/hooks/useSession.ts          — event listeners and message sending
  src/components/ControllerBar.tsx — restart/resume handler, two-step submit
  src/components/TextInput.tsx     — two-step submit
  src/hooks/useGamepad.ts          — terminal-mode button handlers
  src/components/StartMenu.tsx     — resume-session menu item
-/

namespace DeckMind

/-! ## Command Composer (src/utils/buildClaudeCommand.ts)

The TypeScript source operates on JS strings with two regex replaces and
`trim`.  We embed the string operations over `List Char`:

* `/(--worktree)\b/g → ''`   becomes `stripWorktree`
* `/\s{2,}/g → ' '`          becomes `collapseWS`
* `String.prototype.trim`    becomes `jsTrim`

`isWS` models the ASCII portion of the JS `\s` class (all inputs in this
code path are ASCII command-line flags). -/

/-- Whitespace test modelling the ASCII subset of the JS regex class `\s`
(space, tab, line feed, carriage return, vertical tab, form feed). -/
def isWS (c : Char) : Bool :=
  c = ' ' || c = '\t' || c = '\n' || c = '\r' || c = '\x0b' || c = '\x0c'

/-- Word character test for the JS regex word-boundary assertion `\b`:
letters, digits and underscore. -/
def isWordChar (c : Char) : Bool :=
  c.isAlpha || c.isDigit || c = '_'

/-- JS `String.prototype.trim`: drop whitespace from both ends. -/
def jsTrim (l : List Char) : List Char :=
  ((l.dropWhile isWS).reverse.dropWhile isWS).reverse

/-- The characters of the launch-only flag that is stripped on resume/continue. -/
def worktreeChars : List Char := "--worktree".data

/-- The word-boundary assertion `\b` placed after `--worktree`: the next
character (if any) must not be a word character. -/
def boundaryOk : List Char → Bool
  | [] => true
  | d :: _ => !(isWordChar d)

/-- Does the regex `--worktree\b` match at the head of `l`? -/
def wtMatch (l : List Char) : Bool :=
  worktreeChars.isPrefixOf l && boundaryOk (l.drop worktreeChars.length)

/-- Fuel-driven scanner for the global replace `/(--worktree)\b/g → ''`:
left to right, at each position either consume a whole match (dropping it)
or keep the character; scanning resumes after a consumed match, exactly as
a global regex replace does.  Each step consumes at least one character, so
`fuel = l.length` (supplied by `stripWorktree`) always suffices. -/
def stripWorktreeAux : Nat → List Char → List Char
  | 0, l => l
  | _ + 1, [] => []
  | fuel + 1, c :: cs =>
    if wtMatch (c :: cs) then
      stripWorktreeAux fuel ((c :: cs).drop worktreeChars.length)
    else
      c :: stripWorktreeAux fuel cs

/-- Global replace `/(--worktree)\b/g → ''` from `buildClaudeCommand`. -/
def stripWorktree (l : List Char) : List Char :=
  stripWorktreeAux l.length l

/-- Fuel-driven scanner for the global replace `/\s{2,}/g → ' '`: each
maximal run of two or more whitespace characters is replaced by a single
space; an isolated whitespace character is left unchanged.  Each step
consumes at least one character, so `fuel = l.length` always suffices. -/
def collapseWSAux : Nat → List Char → List Char
  | 0, l => l
  | _ + 1, [] => []
  | fuel + 1, c :: cs =>
    if isWS c && !(cs.takeWhile isWS).isEmpty then
      ' ' :: collapseWSAux fuel (cs.dropWhile isWS)
    else
      c :: collapseWSAux fuel cs

/-- Global replace `/\s{2,}/g → ' '` from `buildClaudeCommand`. -/
def collapseWS (l : List Char) : List Char :=
  collapseWSAux l.length l

/-- The optional third argument of `buildClaudeCommand`:
`opts?: { resumeId?: string; continue?: boolean }`.  The TS field
`continue` is a Lean keyword, hence `continueFlag`. -/
structure BuildOpts where
  resumeId : Option String := none
  continueFlag : Bool := false

/-- JS truthiness of the optional string `opts?.resumeId`: absent and
empty strings are falsy. -/
def optTruthy : Option String → Bool
  | none => false
  | some s => !(s = "")

/-- The marker-emission fragment appended to every composed command:
`; printf '\033]666;\007'` (with literal backslashes — the TS template
literal escapes them). -/
def sentinelFragment : String := "; printf '\\033]666;\\007'"

/-- Embedding of `buildClaudeCommand` (src/utils/buildClaudeCommand.ts,
lines 88–116): start with the agent path plus the always-on
`--dangerously-skip-permissions` flag, append `--resume <id>` and/or
`--continue` when requested, append the stored flags (with launch-only
flags stripped and whitespace collapsed on resume/continue), and finally
append the sentinel fragment. -/
def buildClaudeCommand (claudePath storedFlags : String) (opts : BuildOpts) : String :=
  let cmd := claudePath ++ " --dangerously-skip-permissions"
  let cmd :=
    match opts.resumeId with
    | some rid => if rid = "" then cmd else cmd ++ " --resume " ++ rid
    | none => cmd
  let cmd := if opts.continueFlag then cmd ++ " --continue" else cmd
  let safeFlags := String.mk (jsTrim storedFlags.data)
  let safeFlags :=
    if safeFlags ≠ "" ∧ (optTruthy opts.resumeId || opts.continueFlag) then
      String.mk (jsTrim (collapseWS (stripWorktree safeFlags.data)))
    else safeFlags
  let cmd := if safeFlags ≠ "" then cmd ++ " " ++ safeFlags else cmd
  cmd ++ sentinelFragment

set_option maxRecDepth 100000 in
/-- C1: composing the command for agent path `claude`, stored flags
`--worktree --model sonnet` and resume id `abc-123` (continue not
requested) yields a string that contains `--resume abc-123` and
`--model sonnet`, does not contain `--worktree`, and has no run of two or
more consecutive spaces. -/
theorem C1_resume_strips_launch_only_flags :
    ("--resume abc-123".data <:+:
      (buildClaudeCommand "claude" "--worktree --model sonnet"
        { resumeId := some "abc-123" }).data) ∧
    ("--model sonnet".data <:+:
      (buildClaudeCommand "claude" "--worktree --model sonnet"
        { resumeId := some "abc-123" }).data) ∧
    ¬ ("--worktree".data <:+:
      (buildClaudeCommand "claude" "--worktree --model sonnet"
        { resumeId := some "abc-123" }).data) ∧
    ¬ ("  ".data <:+:
      (buildClaudeCommand "claude" "--worktree --model sonnet"
        { resumeId := some "abc-123" }).data) := by
  decide

set_option maxRecDepth 100000 in
/-- C2: composing the initial launch command for agent path `claude` and
stored flags `--worktree` yields a string that starts with
`claude --dangerously-skip-permissions`, contains `--worktree`, and ends
with the marker-emission fragment `; printf '\033]666;\007'`. -/
theorem C2_launch_command_shape :
    ("claude --dangerously-skip-permissions".data <+:
      (buildClaudeCommand "claude" "--worktree" {}).data) ∧
    ("--worktree".data <:+: (buildClaudeCommand "claude" "--worktree" {}).data) ∧
    (sentinelFragment.data <:+ (buildClaudeCommand "claude" "--worktree" {}).data) := by
  decide

/-- C3: for every agent path, stored flags string and option combination,
the composed command ends with the marker-emission fragment
`; printf '\033]666;\007'` (stated as: the output is some prefix followed
by exactly that fragment). -/
theorem C3_always_ends_with_sentinel
    (claudePath storedFlags : String) (opts : BuildOpts) :
    ∃ p : String,
      buildClaudeCommand claudePath storedFlags opts = p ++ sentinelFragment := by
  exact ⟨_, rfl⟩

/-! ## PTY write idioms

A call sequence against the `pty_write` Tauri command is modelled as a
list of primitive steps: a write of a data string, or a fixed delay in
milliseconds.  The Rust side is out of scope; only the sequence of calls
issued by the frontend matters for the submission contract. -/

/-- One primitive step of a PTY interaction issued by the frontend. -/
inductive PtyStep where
  | write (data : String)
  | delay (ms : Nat)
deriving DecidableEq

/-- Embedding of `ptyWriteAndSubmit` (identical copies in
src/components/ControllerBar.tsx lines 12–16 and src/hooks/useGamepad.ts
lines 34–38): write the body, wait 50 ms, then write a lone carriage
return as a second, separate write. -/
def ptyWriteAndSubmit (text : String) : List PtyStep :=
  [PtyStep.write text, PtyStep.delay 50, PtyStep.write "\r"]

/-- Embedding of the inline send path of `TextInput.handleSend`
(src/components/TextInput.tsx lines 27–30): the same two-step idiom,
written out inline. -/
def textInputSendWrites (text : String) : List PtyStep :=
  [PtyStep.write text, PtyStep.delay 50, PtyStep.write "\r"]

/-- Embedding of `sendMessage` (src/hooks/useSession.ts lines 110–125):
a single `pty_write` call whose data is the message body with a newline
appended — body and terminator combined in one write. -/
def sendMessageWrites (message : String) : List PtyStep :=
  [PtyStep.write (message ++ "\n")]

/-! ## UI store (src/stores/appStore.ts)

The Zustand store's per-session fields.  A JS object keyed by session id
is embedded as a function `String → Option SessionState`; the spread-copy
update `{ ...states, [id]: v }` becomes a pointwise functional update.
Only the fields the claims are about are carried (`sessionStates`,
`recentDirs`, `isBusy`); `localStorage` persistence (`saveRecentDirs`) is
I/O outside the model. -/

/-- Per-session UI snapshot (interface `SessionState` in appStore.ts). -/
structure SessionState where
  ended : Bool
  resumeId : Option String
deriving DecidableEq

/-- The store fields relevant to the session-lifecycle claims. -/
structure AppStore where
  sessionStates : String → Option SessionState
  recentDirs : List String
  isBusy : Bool

/-- A store with no per-session state and no recent directories. -/
def emptyStore : AppStore :=
  { sessionStates := fun _ => none, recentDirs := [], isBusy := false }

/-- Embedding of `getSessionState`: the stored snapshot, or the default
`{ ended: false, resumeId: null }` when the id has no entry (the JS
`|| {...}` fallback). -/
def getSessionState (s : AppStore) (sessionId : String) : SessionState :=
  (s.sessionStates sessionId).getD ⟨false, none⟩

/-- Embedding of `setSessionEnded`: copy the map and replace the one
snapshot with a fresh record whose `ended` field is the new value and
whose other field is taken from the previous snapshot (or the default). -/
def setSessionEnded (s : AppStore) (sessionId : String) (ended : Bool) : AppStore :=
  { s with
    sessionStates := fun k =>
      if k = sessionId then
        some { (s.sessionStates sessionId).getD ⟨false, none⟩ with ended := ended }
      else s.sessionStates k }

/-- Embedding of `setClaudeResumeId`: same shape as `setSessionEnded`,
replacing only the `resumeId` field. -/
def setClaudeResumeId (s : AppStore) (sessionId : String) (resumeId : Option String) :
    AppStore :=
  { s with
    sessionStates := fun k =>
      if k = sessionId then
        some { (s.sessionStates sessionId).getD ⟨false, none⟩ with resumeId := resumeId }
      else s.sessionStates k }

/-- Embedding of `clearSessionState`: delete the id's entry. -/
def clearSessionState (s : AppStore) (sessionId : String) : AppStore :=
  { s with
    sessionStates := fun k => if k = sessionId then none else s.sessionStates k }

/-- Embedding of `setBusy`. -/
def setBusy (s : AppStore) (busy : Bool) : AppStore :=
  { s with isBusy := busy }

/-- Embedding of `setRecentDirs` (the store-state part; the
`saveRecentDirs` localStorage call is I/O outside the model). -/
def setRecentDirs (s : AppStore) (dirs : List String) : AppStore :=
  { s with recentDirs := dirs }

/-- Embedding of `addRecentDir`: drop existing occurrences of `dir`, put
`dir` first, keep at most 10 entries. -/
def addRecentDir (s : AppStore) (dir : String) : AppStore :=
  let current := s.recentDirs.filter (fun d => d != dir)
  let updated := (dir :: current).take 10
  { s with recentDirs := updated }

/-! ## Event handlers (src/hooks/useSession.ts, setupListeners)

The `claude-exited` handler also scans the last 30 rendered terminal
lines for a resume id; the xterm.js buffer is external, so the scan's
result is a parameter `found`. -/

/-- Embedding of the `claude-exited` handler (useSession.ts lines 27–45):
busy off, mark the session ended, and record a resume id when the
terminal-buffer scan found one. -/
def onClaudeExited (s : AppStore) (sessionId : String) (found : Option String) :
    AppStore :=
  let s1 := setSessionEnded (setBusy s false) sessionId true
  match found with
  | some rid => setClaudeResumeId s1 sessionId rid
  | none => s1

/-- Embedding of the `session-done` handler (useSession.ts lines 48–51):
busy off and mark the session ended. -/
def onSessionDone (s : AppStore) (sessionId : String) : AppStore :=
  setSessionEnded (setBusy s false) sessionId true

/-! ## Module-level listener guard (src/hooks/useSession.ts line 7)

`let listenerSetup = false` is module state living for the whole host
process; `setupListeners` checks and flips it before subscribing the
three event listeners. -/

/-- Module state for listener registration: the guard flag and the list
of event names subscribed so far (one entry per `listen` call made). -/
structure ListenerModule where
  listenerSetup : Bool
  subscriptions : List String
deriving DecidableEq

/-- The three events `setupListeners` subscribes, in order. -/
def eventNames : List String :=
  ["claude-exited", "session-done", "session-message-sent"]

/-- Embedding of `setupListeners`: a no-op when the guard is already set;
otherwise set the guard and subscribe the three listeners. -/
def setupListeners (m : ListenerModule) : ListenerModule :=
  if m.listenerSetup then m
  else { listenerSetup := true, subscriptions := m.subscriptions ++ eventNames }

/-- Module state at host-process start. -/
def initialModule : ListenerModule :=
  { listenerSetup := false, subscriptions := [] }

/-! ## Relaunch handlers

Each UI handler that relaunches the agent is embedded as the ordered list
of store updates and PTY writes it performs.  `applySteps` replays the
store updates, so properties about the store state *at the moment of a
write* can be stated precisely. -/

/-- One observable step of a UI handler: a store update or a PTY write. -/
inductive UIStep where
  | setEnded (sessionId : String) (ended : Bool)
  | setResume (sessionId : String) (resumeId : Option String)
  | setMode (mode : String)
  | ptyWrite (sessionId : String) (data : String)
deriving DecidableEq

/-- Effect of one step on the store (PTY writes and UI-mode changes do
not touch the session-state map). -/
def applyStep (s : AppStore) : UIStep → AppStore
  | UIStep.setEnded sessionId e => setSessionEnded s sessionId e
  | UIStep.setResume sessionId r => setClaudeResumeId s sessionId r
  | UIStep.setMode _ => s
  | UIStep.ptyWrite _ _ => s

/-- Replay a list of steps against the store. -/
def applySteps (s : AppStore) (steps : List UIStep) : AppStore :=
  steps.foldl applyStep s

/-- Embedding of `handleRestart` (src/components/ControllerBar.tsx lines
74–94): build the relaunch command from the session's stored resume id
(`activeState?.resumeId ?? null`, read straight off the map), clear
`ended` and the resume id, then type the command into the PTY.
`claudePath` and `flags` are the values returned by the `get_claude_path`
and `get_session_flags` backend calls. -/
def handleRestartSteps (s : AppStore) (sessionId claudePath flags : String) :
    List UIStep :=
  let claudeResumeId := (s.sessionStates sessionId).bind SessionState.resumeId
  let cmd := buildClaudeCommand claudePath flags { resumeId := claudeResumeId }
  [UIStep.setEnded sessionId false, UIStep.setResume sessionId none,
   UIStep.ptyWrite sessionId (cmd ++ "\r")]

/-- Embedding of the gamepad `B` button in terminal mode
(src/hooks/useGamepad.ts lines 171–194): when the session has ended,
relaunch (clear state, then type the command); otherwise send Ctrl+C. -/
def gamepadBSteps (s : AppStore) (sessionId claudePath flags : String) :
    List UIStep :=
  let ss := getSessionState s sessionId
  if ss.ended then
    let cmd := buildClaudeCommand claudePath flags { resumeId := ss.resumeId }
    [UIStep.setEnded sessionId false, UIStep.setResume sessionId none,
     UIStep.ptyWrite sessionId (cmd ++ "\r")]
  else
    [UIStep.ptyWrite sessionId "\x03"]

/-- Embedding of the gamepad `Y` button in terminal mode
(src/hooks/useGamepad.ts lines 196–211): when the session has ended,
relaunch with `--continue` (clear state, then type the command);
otherwise do nothing. -/
def gamepadYSteps (s : AppStore) (sessionId claudePath flags : String) :
    List UIStep :=
  let ss := getSessionState s sessionId
  if ss.ended then
    let cmd := buildClaudeCommand claudePath flags { continueFlag := true }
    [UIStep.setEnded sessionId false, UIStep.setResume sessionId none,
     UIStep.ptyWrite sessionId (cmd ++ "\r")]
  else
    []

/-- Embedding of the `resumeSession` start-menu item
(src/components/StartMenu.tsx, `executeStartMenuItem`): clear state,
switch to terminal mode, then type the command. -/
def startMenuResumeSteps (s : AppStore) (sessionId claudePath flags : String) :
    List UIStep :=
  let ss := getSessionState s sessionId
  let cmd := buildClaudeCommand claudePath flags { resumeId := ss.resumeId }
  [UIStep.setEnded sessionId false, UIStep.setResume sessionId none,
   UIStep.setMode "terminal", UIStep.ptyWrite sessionId (cmd ++ "\r")]

/-- Every PTY write the handler performs for `sessionId` happens at a
point where the session's snapshot is already `{ ended := false,
resumeId := none }`. -/
def clearedBeforeWrite (s : AppStore) (sessionId : String) (steps : List UIStep) :
    Prop :=
  ∀ i data, steps.get? i = some (UIStep.ptyWrite sessionId data) →
    getSessionState (applySteps s (steps.take i)) sessionId = ⟨false, none⟩

/-- Demonstration store used by witnesses: one session `a` that has
ended with a recorded resume id. -/
def demoStore : AppStore :=
  { sessionStates := fun k => if k = "a" then some ⟨true, some "x"⟩ else none,
    recentDirs := ["d"], isBusy := true }

/-- Demonstration store whose session `s` has ended (resume id recorded). -/
def endedStore : AppStore :=
  { sessionStates := fun k => if k = "s" then some ⟨true, some "rid"⟩ else none,
    recentDirs := [], isBusy := false }

/-- Store whose recent-directory list already contains a duplicate (such
a list can be installed by `setRecentDirs` or read back from persisted
storage at startup). -/
def dupStore : AppStore :=
  { sessionStates := fun _ => none, recentDirs := ["a", "a"], isBusy := false }

/-- Store with a duplicate-free recent-directory list. -/
def nodupStore : AppStore :=
  { sessionStates := fun _ => none, recentDirs := ["x"], isBusy := false }

/-! ## Theorems for claims C4–C10 -/

/-- C4: evidence for the divergence — `sendMessage` submits the message
body and its terminating newline as ONE combined `pty_write` (and uses
`\n`, not `\r`), while the two-step idiom used everywhere else
(`ptyWriteAndSubmit`, `TextInput.handleSend`) writes the body, delays
50 ms, and writes a lone carriage return as a second, separate write.
The repository's own documentation ("Text submission: Two-step write —
text first, 50ms delay, then `\r` separately") agrees with the claim, so
`sendMessage` is the slip. -/
theorem C4_sendMessage_combines_body_and_terminator :
    sendMessageWrites "hi" = [PtyStep.write "hi\n"] ∧
    (sendMessageWrites "hi").length = 1 ∧
    ptyWriteAndSubmit "hi" =
      [PtyStep.write "hi", PtyStep.delay 50, PtyStep.write "\r"] ∧
    textInputSendWrites "hi" =
      [PtyStep.write "hi", PtyStep.delay 50, PtyStep.write "\r"] := by
  decide

/-- C5 counterexample: after the shell-exit event (`session-done`) has
been handled for session `s1`, the session's `ended` flag IS left true —
the handler sets it to true, contradicting the claim that it is not left
true once the shell itself has exited. -/
theorem C5_counterexample_session_done_leaves_ended_true :
    (getSessionState (onSessionDone emptyStore "s1") "s1").ended = true := by
  decide

/-- C5 (amended): the `claude-exited` handler sets the session's `ended`
flag to true, and the `session-done` (shell-exit) handler also sets it to
true rather than clearing it; `ended` becomes false again only when a
relaunch resets it (`setSessionEnded _ _ false`) or the entry is removed
entirely (`clearSessionState`, performed on session close). -/
theorem C5_amended_ended_flag_transitions
    (s : AppStore) (sessionId : String) (found : Option String) :
    (getSessionState (onClaudeExited s sessionId found) sessionId).ended = true ∧
    (getSessionState (onSessionDone s sessionId) sessionId).ended = true ∧
    getSessionState (clearSessionState s sessionId) sessionId = ⟨false, none⟩ ∧
    (getSessionState (setSessionEnded s sessionId false) sessionId).ended = false := by
  refine ⟨?_, ?_, ?_, ?_⟩
  · cases found <;>
      simp [onClaudeExited, getSessionState, setClaudeResumeId, setSessionEnded, setBusy]
  · simp [onSessionDone, getSessionState, setSessionEnded, setBusy]
  · simp [clearSessionState, getSessionState]
  · simp [getSessionState, setSessionEnded]

/-- C6: every UI relaunch path — ControllerBar restart/resume, gamepad B
(when the session has ended), gamepad Y continue, and the start-menu
resume item — clears the session's `ended` flag and resume token before
the relaunch command is written to the PTY: at the index of each PTY
write in the handler's step list, the replayed store already holds the
snapshot `{ ended := false, resumeId := none }`. -/
theorem C6_relaunch_clears_state_before_write
    (s : AppStore) (sessionId claudePath flags : String) :
    clearedBeforeWrite s sessionId (handleRestartSteps s sessionId claudePath flags) ∧
    ((getSessionState s sessionId).ended = true →
      clearedBeforeWrite s sessionId (gamepadBSteps s sessionId claudePath flags)) ∧
    clearedBeforeWrite s sessionId (gamepadYSteps s sessionId claudePath flags) ∧
    clearedBeforeWrite s sessionId (startMenuResumeSteps s sessionId claudePath flags) := by
  refine ⟨?_, ?_, ?_, ?_⟩
  · intro i data h
    match i with
    | 0 => simp [handleRestartSteps] at h
    | 1 => simp [handleRestartSteps] at h
    | 2 =>
        simp [handleRestartSteps, applySteps, applyStep, getSessionState,
          setClaudeResumeId, setSessionEnded]
    | n + 3 => simp [handleRestartSteps] at h
  · intro hEnded i data h
    match i with
    | 0 => simp [gamepadBSteps, hEnded] at h
    | 1 => simp [gamepadBSteps, hEnded] at h
    | 2 =>
        have hE : ((s.sessionStates sessionId).getD ⟨false, none⟩).ended = true := hEnded
        simp [gamepadBSteps, hE, applySteps, applyStep, getSessionState,
          setClaudeResumeId, setSessionEnded]
    | n + 3 => simp [gamepadBSteps, hEnded] at h
  · by_cases hEnded : (getSessionState s sessionId).ended
    · intro i data h
      match i with
      | 0 => simp [gamepadYSteps, hEnded] at h
      | 1 => simp [gamepadYSteps, hEnded] at h
      | 2 =>
          have hE : ((s.sessionStates sessionId).getD ⟨false, none⟩).ended = true := hEnded
          simp [gamepadYSteps, hE, applySteps, applyStep, getSessionState,
            setClaudeResumeId, setSessionEnded]
      | n + 3 => simp [gamepadYSteps, hEnded] at h
    · intro i data h
      simp [gamepadYSteps, hEnded] at h
  · intro i data h
    match i with
    | 0 => simp [startMenuResumeSteps] at h
    | 1 => simp [startMenuResumeSteps] at h
    | 2 => simp [startMenuResumeSteps] at h
    | 3 =>
        simp [startMenuResumeSteps, applySteps, applyStep, getSessionState,
          setClaudeResumeId, setSessionEnded]
    | n + 4 => simp [startMenuResumeSteps] at h

/-- C6 witness: on a concrete store whose session `s` has ended, the
gamepad-B branch hypothesis is discharged and the guarantee holds. -/
theorem C6_witness :
    (getSessionState endedStore "s").ended = true ∧
    clearedBeforeWrite endedStore "s" (gamepadBSteps endedStore "s" "claude" "") :=
  ⟨by decide,
    (C6_relaunch_clears_state_before_write endedStore "s" "claude" "").2.1 (by decide)⟩

/-- Helper: after one or more calls, the listener module is exactly
"guard set, three listeners subscribed once". -/
theorem iterate_setupListeners_succ (n : Nat) :
    (setupListeners)^[n + 1] initialModule =
      { listenerSetup := true, subscriptions := eventNames } := by
  induction n with
  | zero =>
      rw [Function.iterate_one]
      rfl
  | succ n ih =>
      rw [Function.iterate_succ_apply', ih]
      rfl

/-- C7: listener registration is once-only — for any number of calls to
`setupListeners` within one host-process lifetime, each event listener is
subscribed at most once, and `setupListeners` is idempotent. -/
theorem C7_listeners_registered_once :
    (∀ (n : Nat) (eventName : String),
      ((setupListeners)^[n] initialModule).subscriptions.count eventName ≤ 1) ∧
    (∀ m : ListenerModule, setupListeners (setupListeners m) = setupListeners m) := by
  constructor
  · intro n eventName
    cases n with
    | zero => simp [initialModule]
    | succ n =>
        rw [iterate_setupListeners_succ]
        exact List.nodup_iff_count_le_one.mp (by decide) eventName
  · intro m
    by_cases h : m.listenerSetup
    · simp [setupListeners, h]
    · simp [setupListeners, h]

/-- C8: `setSessionEnded` and `setClaudeResumeId` are frame-local — each
leaves every other session's snapshot untouched and the rest of the store
unchanged, and each installs a whole fresh snapshot for the target id in
which only the named field differs from the previous snapshot. -/
theorem C8_setters_are_frame_local
    (s : AppStore) (sessionId other : String) (e : Bool) (r : Option String)
    (h : other ≠ sessionId) :
    (setSessionEnded s sessionId e).sessionStates other = s.sessionStates other ∧
    (setClaudeResumeId s sessionId r).sessionStates other = s.sessionStates other ∧
    (setSessionEnded s sessionId e).sessionStates sessionId =
      some ⟨e, (getSessionState s sessionId).resumeId⟩ ∧
    (setClaudeResumeId s sessionId r).sessionStates sessionId =
      some ⟨(getSessionState s sessionId).ended, r⟩ ∧
    (setSessionEnded s sessionId e).recentDirs = s.recentDirs ∧
    (setSessionEnded s sessionId e).isBusy = s.isBusy ∧
    (setClaudeResumeId s sessionId r).recentDirs = s.recentDirs ∧
    (setClaudeResumeId s sessionId r).isBusy = s.isBusy := by
  refine ⟨?_, ?_, ?_, ?_, rfl, rfl, rfl, rfl⟩
  · simp [setSessionEnded, h]
  · simp [setClaudeResumeId, h]
  · simp [setSessionEnded, getSessionState]
  · simp [setClaudeResumeId, getSessionState]

/-- C8 witness: the frame property at a concrete store and distinct
session ids. -/
theorem C8_witness :
    ("b" : String) ≠ "a" ∧
    ((setSessionEnded demoStore "a" false).sessionStates "b" =
        demoStore.sessionStates "b" ∧
      (setClaudeResumeId demoStore "a" (some "y")).sessionStates "b" =
        demoStore.sessionStates "b" ∧
      (setSessionEnded demoStore "a" false).sessionStates "a" =
        some ⟨false, (getSessionState demoStore "a").resumeId⟩ ∧
      (setClaudeResumeId demoStore "a" (some "y")).sessionStates "a" =
        some ⟨(getSessionState demoStore "a").ended, some "y"⟩ ∧
      (setSessionEnded demoStore "a" false).recentDirs = demoStore.recentDirs ∧
      (setSessionEnded demoStore "a" false).isBusy = demoStore.isBusy ∧
      (setClaudeResumeId demoStore "a" (some "y")).recentDirs = demoStore.recentDirs ∧
      (setClaudeResumeId demoStore "a" (some "y")).isBusy = demoStore.isBusy) :=
  ⟨by decide, C8_setters_are_frame_local demoStore "a" "b" false (some "y") (by decide)⟩

/-- C9: `getSessionState` is total — for a session id with no stored
entry it returns the default snapshot `{ ended := false, resumeId :=
none }` rather than failing. -/
theorem C9_getSessionState_total_default (s : AppStore) (sessionId : String)
    (h : s.sessionStates sessionId = none) :
    getSessionState s sessionId = ⟨false, none⟩ := by
  simp [getSessionState, h]

/-- C9 witness: an unknown id on the empty store yields the default. -/
theorem C9_witness :
    emptyStore.sessionStates "unknown-id" = none ∧
    getSessionState emptyStore "unknown-id" = ⟨false, none⟩ :=
  ⟨rfl, C9_getSessionState_total_default emptyStore "unknown-id" rfl⟩

/-- C10 counterexample: when the prior list already holds a duplicate
(installable through `setRecentDirs` or loaded from persisted storage),
`addRecentDir` keeps it — the claim's "contains no duplicate entries"
fails as stated. -/
theorem C10_counterexample_duplicates_survive :
    (addRecentDir dupStore "b").recentDirs = ["b", "a", "a"] ∧
    ¬ (addRecentDir dupStore "b").recentDirs.Nodup := by
  decide

/-- C10 (amended): provided the recent-directory list holds no duplicate
before the call, after `addRecentDir dir` the list has `dir` first,
holds no duplicate, has length at most 10, and its remaining entries form
a sublist (hence keep the prior relative order) of the previous list. -/
theorem C10_amended_addRecentDir (s : AppStore) (dir : String)
    (h : s.recentDirs.Nodup) :
    (addRecentDir s dir).recentDirs.head? = some dir ∧
    (addRecentDir s dir).recentDirs.Nodup ∧
    (addRecentDir s dir).recentDirs.length ≤ 10 ∧
    List.Sublist (addRecentDir s dir).recentDirs.tail s.recentDirs := by
  have hrec : (addRecentDir s dir).recentDirs
      = dir :: (s.recentDirs.filter (fun d => d != dir)).take 9 := rfl
  have hfil : (s.recentDirs.filter (fun d => d != dir)).Nodup := h.filter _
  have hsub : List.Sublist ((s.recentDirs.filter (fun d => d != dir)).take 9) s.recentDirs :=
    (List.take_sublist _ _).trans (List.filter_sublist _)
  refine ⟨by rw [hrec]; rfl, ?_, ?_, ?_⟩
  · rw [hrec]
    refine List.nodup_cons.mpr ⟨?_, (List.take_sublist _ _).nodup hfil⟩
    intro hmem
    have := List.take_subset _ _ hmem
    simp [List.mem_filter] at this
  · rw [hrec, List.length_cons]
    have h9 := List.length_take_le 9 (s.recentDirs.filter (fun d => d != dir))
    omega
  · rw [hrec]
    exact hsub

/-- C10 witness: the amended guarantee at a concrete duplicate-free
store. -/
theorem C10_witness :
    (nodupStore.recentDirs.Nodup) ∧
    ((addRecentDir nodupStore "y").recentDirs.head? = some "y" ∧
      (addRecentDir nodupStore "y").recentDirs.Nodup ∧
      (addRecentDir nodupStore "y").recentDirs.length ≤ 10 ∧
      List.Sublist (addRecentDir nodupStore "y").recentDirs.tail nodupStore.recentDirs) :=
  ⟨by decide, C10_amended_addRecentDir nodupStore "y" (by decide)⟩

end DeckMind
